import Mathlib

/-!
Shallow embedding of the async polling client of the supermodel TypeScript
SDK (src/async.ts).  JavaScript numbers (times, durations, the retryAfter
field) are modelled as rationals; the behaviour of the external world during
one polling session — the envelope answered to each call, the clock reading
at the top of each iteration, and where the cancellation signal fires — is
an explicit trace (`PollWorld`).  The progress callback `onPollingProgress`
has no effect on control flow and is not modelled.  Thrown errors become
constructors of `PollResult`; the JavaScript `name` field of each error
class is recovered by `pollErrorName`.
-/

namespace SupermodelSDK

/-- Wire-level async response envelope (`interface AsyncEnvelope<T>` in
async.ts).  `retryAfter` is in seconds; `result = none` models an
undefined result, `error = none` an absent error message. -/
structure AsyncEnvelope (T : Type) where
  status : String
  jobId : String
  retryAfter : Option ℚ
  error : Option String
  result : Option T
  deriving DecidableEq

/-- JavaScript `s || d` on a string that is always present: the empty
string is falsy. -/
def jsStrOr (s d : String) : String :=
  if s = "" then d else s

/-- JavaScript `s || d` on a possibly-absent string: `undefined` and the
empty string are both falsy. -/
def jsOptStrOr (s : Option String) (d : String) : String :=
  match s with
  | none => d
  | some v => jsStrOr v d

/-- JavaScript `x || d` on a possibly-absent number: `undefined` and `0`
are both falsy. -/
def jsNumOr (x : Option ℚ) (d : ℚ) : ℚ :=
  match x with
  | none => d
  | some v => if v = 0 then d else v

/-- The wait duration (milliseconds) computed before retrying, line 259 of
async.ts: `(response.retryAfter || defaultRetryIntervalMs / 1000) * 1000`. -/
def retryWaitMs {T : Type} (response : AsyncEnvelope T) (defaultRetryIntervalMs : ℚ) : ℚ :=
  jsNumOr response.retryAfter (defaultRetryIntervalMs / 1000) * 1000

/-- Outcome of one `sleepWithAbort` call: the promise either resolves
normally or rejects with the AbortError. -/
inductive SleepOutcome where
  | resolved
  | abortErr
  deriving DecidableEq

/-- Model of `sleepWithAbort(ms, signal)` (async.ts lines 154-182).
`alreadyAborted` is `signal.aborted` at entry; `abortAfter = some u` means
the signal fires `u` milliseconds after the sleep starts, `none` that it
never fires during this sleep.  The returned rational is the time at which
the promise settles, measured from the start of the sleep: rejection is
immediate when the signal is already aborted, at `u` when the signal fires
before the timer (`u < ms`), and otherwise the timer wins and the promise
resolves at `ms`. -/
def sleepWithAbort (ms : ℚ) (alreadyAborted : Bool) (abortAfter : Option ℚ) :
    SleepOutcome × ℚ :=
  if alreadyAborted then
    (SleepOutcome.abortErr, 0)
  else
    match abortAfter with
    | none => (SleepOutcome.resolved, ms)
    | some u => if u < ms then (SleepOutcome.abortErr, u) else (SleepOutcome.resolved, ms)

/-- Result of one polling session: the returned value or the thrown error.
`jobFailed` is `JobFailedError` (fields `jobId`, `errorMessage`),
`pollingTimeout` is `PollingTimeoutError` (fields `jobId`, `timeoutMs`,
`attempts`), `protocolViolation` is the plain `Error` thrown when a
completed envelope has an undefined result, and `aborted` is the
AbortError thrown on cancellation. -/
inductive PollResult (T : Type) where
  | success (value : T)
  | jobFailed (jobId : String) (errorMessage : String)
  | pollingTimeout (jobId : String) (timeoutMs : ℚ) (attempts : Nat)
  | protocolViolation (jobId : String)
  | aborted
  deriving DecidableEq

/-- The JavaScript `name` property of the error carried by a `PollResult`
(`none` on success).  `JobFailedError` and `PollingTimeoutError` set their
names in their constructors; the AbortError sets `name = "AbortError"`;
the protocol-violation error is a plain `Error`. -/
def pollErrorName {T : Type} : PollResult T → Option String
  | PollResult.success _ => none
  | PollResult.jobFailed _ _ => some "JobFailedError"
  | PollResult.pollingTimeout _ _ _ => some "PollingTimeoutError"
  | PollResult.protocolViolation _ => some "Error"
  | PollResult.aborted => some "AbortError"

/-- Trace of the external world during one polling session.  Iteration `i`
(0-based) makes at most the `i`-th call.  `apiCall i` is the envelope the
submit/check operation returns to the `i`-th call; `elapsedAt i` is
`Date.now() - startTime` computed at the top of iteration `i`;
`abortedBefore i` is `signal.aborted` at the abort check that precedes the
`i`-th call; `sleepAborted i` and `sleepAbortAfter i` describe the signal
during the sleep that follows the `i`-th call (already aborted at entry,
resp. firing that many milliseconds into the sleep). -/
structure PollWorld (T : Type) where
  apiCall : Nat → AsyncEnvelope T
  elapsedAt : Nat → ℚ
  abortedBefore : Nat → Bool
  sleepAborted : Nat → Bool
  sleepAbortAfter : Nat → Option ℚ

/-- The body of `pollUntilComplete` (async.ts lines 214-265) as a
fuel-indexed loop.  Arguments after the trace and the two configured
durations: remaining iterations of the `while` loop (`fuel`, initially
`maxPollingAttempts`), call index `i`, attempts made so far `attempt`, and
the current `jobId` variable.  The second component of the result is the
total number of calls issued to the submit/check operation. -/
def pollLoop {T : Type} (w : PollWorld T) (timeoutMs defaultRetryIntervalMs : ℚ) :
    Nat → Nat → Nat → String → PollResult T × Nat
  | 0, i, attempt, jobId =>
    (PollResult.pollingTimeout (jsStrOr jobId "unknown") timeoutMs attempt, i)
  | fuel + 1, i, attempt, jobId =>
    if w.abortedBefore i then
      (PollResult.aborted, i)
    else if w.elapsedAt i ≥ timeoutMs then
      (PollResult.pollingTimeout (jsStrOr jobId "unknown") timeoutMs (attempt + 1), i)
    else
      let response := w.apiCall i
      if response.status = "completed" then
        match response.result with
        | some r => (PollResult.success r, i + 1)
        | none => (PollResult.protocolViolation response.jobId, i + 1)
      else if response.status = "failed" then
        (PollResult.jobFailed response.jobId (jsOptStrOr response.error "Unknown error"), i + 1)
      else
        match sleepWithAbort (retryWaitMs response defaultRetryIntervalMs)
            (w.sleepAborted i) (w.sleepAbortAfter i) with
        | (SleepOutcome.abortErr, _) => (PollResult.aborted, i + 1)
        | (SleepOutcome.resolved, _) =>
          pollLoop w timeoutMs defaultRetryIntervalMs fuel (i + 1) (attempt + 1) response.jobId

/-- The caller-supplied options of `pollUntilComplete`; `none` means the
field was not supplied and the documented default applies. -/
structure AsyncClientOptions where
  timeoutMs : Option ℚ
  defaultRetryIntervalMs : Option ℚ
  maxPollingAttempts : Option Int

/-- `pollUntilComplete(apiCall, options)` for one session over the world
trace `w`: destructures the options with defaults 900000 / 10000 / 90 and
runs the loop from `attempt = 0`, `jobId = ""`.  The loop guard
`attempt < maxPollingAttempts` runs the body `maxPollingAttempts.toNat`
times. -/
def pollUntilComplete {T : Type} (w : PollWorld T) (options : AsyncClientOptions) :
    PollResult T × Nat :=
  let timeoutMs := options.timeoutMs.getD 900000
  let defaultRetryIntervalMs := options.defaultRetryIntervalMs.getD 10000
  let maxPollingAttempts := options.maxPollingAttempts.getD 90
  pollLoop w timeoutMs defaultRetryIntervalMs maxPollingAttempts.toNat 0 0 ""

/-- Iteration `i` of the loop neither exits nor observes a terminal
envelope: the abort check passes, the elapsed-time check passes, the
envelope status is non-terminal, and the following sleep resolves. -/
def continuesAt {T : Type} (w : PollWorld T) (timeoutMs defaultRetryIntervalMs : ℚ)
    (i : Nat) : Prop :=
  w.abortedBefore i = false ∧
  w.elapsedAt i < timeoutMs ∧
  (w.apiCall i).status ≠ "completed" ∧
  (w.apiCall i).status ≠ "failed" ∧
  (sleepWithAbort (retryWaitMs (w.apiCall i) defaultRetryIntervalMs)
      (w.sleepAborted i) (w.sleepAbortAfter i)).1 = SleepOutcome.resolved

instance continuesAtDecidable {T : Type} (w : PollWorld T) (t d : ℚ) (i : Nat) :
    Decidable (continuesAt w t d i) := by
  unfold continuesAt
  infer_instance

/-- Value of the `jobId` loop variable at the top of iteration `k`: the
initial empty string before the first response, afterwards the `jobId` of
the last response. -/
def jobIdBefore {T : Type} (w : PollWorld T) : Nat → String
  | 0 => ""
  | k + 1 => (w.apiCall k).jobId

/-- One iteration with the signal already aborted: the AbortError is
thrown before the call, so the call count stays at `i`. -/
lemma pollLoop_abort {T : Type} (w : PollWorld T) (t d : ℚ) (fuel i a : Nat) (j : String)
    (hab : w.abortedBefore i = true) :
    pollLoop w t d (fuel + 1) i a j = (PollResult.aborted, i) := by
  simp [pollLoop, hab]

/-- One iteration whose elapsed-time check fires: the timeout error is
thrown with the incremented attempt counter and without issuing the call. -/
lemma pollLoop_timeout {T : Type} (w : PollWorld T) (t d : ℚ) (fuel i a : Nat) (j : String)
    (hab : w.abortedBefore i = false) (ht : t ≤ w.elapsedAt i) :
    pollLoop w t d (fuel + 1) i a j =
      (PollResult.pollingTimeout (jsStrOr j "unknown") t (a + 1), i) := by
  simp [pollLoop, hab, ht]

/-- One iteration observing a completed envelope with a present result:
the result is returned and the call count becomes `i + 1`. -/
lemma pollLoop_completed_some {T : Type} (w : PollWorld T) (t d : ℚ) (fuel i a : Nat)
    (j : String) (v : T)
    (hab : w.abortedBefore i = false) (ht : w.elapsedAt i < t)
    (hst : (w.apiCall i).status = "completed") (hres : (w.apiCall i).result = some v) :
    pollLoop w t d (fuel + 1) i a j = (PollResult.success v, i + 1) := by
  simp [pollLoop, hab, not_le.mpr ht, hst, hres]

/-- One iteration observing a completed envelope with an undefined result:
the protocol-violation error is thrown. -/
lemma pollLoop_completed_none {T : Type} (w : PollWorld T) (t d : ℚ) (fuel i a : Nat)
    (j : String)
    (hab : w.abortedBefore i = false) (ht : w.elapsedAt i < t)
    (hst : (w.apiCall i).status = "completed") (hres : (w.apiCall i).result = none) :
    pollLoop w t d (fuel + 1) i a j =
      (PollResult.protocolViolation (w.apiCall i).jobId, i + 1) := by
  simp [pollLoop, hab, not_le.mpr ht, hst, hres]

/-- One iteration observing a failed envelope: the `JobFailedError` is
thrown with the jobId of the envelope and its error message defaulted
through JavaScript truthiness. -/
lemma pollLoop_failed {T : Type} (w : PollWorld T) (t d : ℚ) (fuel i a : Nat) (j : String)
    (hab : w.abortedBefore i = false) (ht : w.elapsedAt i < t)
    (hst : (w.apiCall i).status = "failed") :
    pollLoop w t d (fuel + 1) i a j =
      (PollResult.jobFailed (w.apiCall i).jobId
        (jsOptStrOr (w.apiCall i).error "Unknown error"), i + 1) := by
  have hne : (w.apiCall i).status ≠ "completed" := by rw [hst]; decide
  simp [pollLoop, hab, not_le.mpr ht, hne, hst]

/-- One iteration whose envelope is non-terminal and whose sleep rejects:
the AbortError propagates out of the loop. -/
lemma pollLoop_sleep_abort {T : Type} (w : PollWorld T) (t d : ℚ) (fuel i a : Nat)
    (j : String)
    (hab : w.abortedBefore i = false) (ht : w.elapsedAt i < t)
    (hc : (w.apiCall i).status ≠ "completed") (hf : (w.apiCall i).status ≠ "failed")
    (hs : (sleepWithAbort (retryWaitMs (w.apiCall i) d)
        (w.sleepAborted i) (w.sleepAbortAfter i)).1 = SleepOutcome.abortErr) :
    pollLoop w t d (fuel + 1) i a j = (PollResult.aborted, i + 1) := by
  rcases hsw : sleepWithAbort (retryWaitMs (w.apiCall i) d)
      (w.sleepAborted i) (w.sleepAbortAfter i) with ⟨o, e⟩
  rw [hsw] at hs
  simp only at hs
  subst hs
  simp [pollLoop, hab, not_le.mpr ht, hc, hf, hsw]

/-- One iteration whose envelope is non-terminal and whose sleep resolves:
the loop recurses with one unit of fuel less, the next call index, the
incremented attempt counter, and the jobId of the response. -/
lemma pollLoop_step {T : Type} (w : PollWorld T) (t d : ℚ) (fuel i a : Nat) (j : String)
    (h : continuesAt w t d i) :
    pollLoop w t d (fuel + 1) i a j =
      pollLoop w t d fuel (i + 1) (a + 1) ((w.apiCall i).jobId) := by
  obtain ⟨hab, ht, hc, hf, hs⟩ := h
  rcases hsw : sleepWithAbort (retryWaitMs (w.apiCall i) d)
      (w.sleepAborted i) (w.sleepAbortAfter i) with ⟨o, e⟩
  rw [hsw] at hs
  simp only at hs
  subst hs
  simp [pollLoop, hab, not_le.mpr ht, hc, hf, hsw]

/-- Running the loop through `k` non-exiting iterations: from the initial
state it reaches call index `k`, attempt counter `k`, and the jobId of the
last response, with the fuel decreased by `k`. -/
lemma pollLoop_advance {T : Type} (w : PollWorld T) (t d : ℚ) :
    ∀ k fuel : Nat, (∀ i, i < k → continuesAt w t d i) →
      pollLoop w t d (k + fuel) 0 0 "" = pollLoop w t d fuel k k (jobIdBefore w k) := by
  intro k
  induction k with
  | zero =>
    intro fuel _
    simp [jobIdBefore]
  | succ k ih =>
    intro fuel h
    have h1 : pollLoop w t d (k + 1 + fuel) 0 0 "" = pollLoop w t d (k + (fuel + 1)) 0 0 "" := by
      have : k + 1 + fuel = k + (fuel + 1) := by omega
      rw [this]
    rw [h1, ih (fuel + 1) (fun i hi => h i (hi.trans (Nat.lt_succ_self k))),
      pollLoop_step w t d fuel k k (jobIdBefore w k) (h k (Nat.lt_succ_self k))]
    rfl

/-- From the start of a session with explicitly supplied options: if the
first `k` iterations do not exit and the attempt budget still allows an
iteration `k`, the session is in the state of iteration `k` with
`maxPollingAttempts.toNat - k` units of fuel left. -/
lemma pollUntilComplete_reach {T : Type} (w : PollWorld T) (t d : ℚ) (max : Int) (k : Nat)
    (hk : (k : Int) < max) (h : ∀ i, i < k → continuesAt w t d i) :
    pollUntilComplete w ⟨some t, some d, some max⟩ =
      pollLoop w t d (max.toNat - k) k k (jobIdBefore w k) := by
  have hk' : k < max.toNat := by omega
  have hsplit : max.toNat = k + (max.toNat - k) := by omega
  show pollLoop w t d max.toNat 0 0 "" = _
  conv_lhs => rw [hsplit]
  rw [pollLoop_advance w t d k (max.toNat - k) h]

/-- The remaining fuel at a still-allowed iteration is positive. -/
lemma fuel_succ_of_lt (max : Int) (k : Nat) (hk : (k : Int) < max) :
    max.toNat - k = (max.toNat - (k + 1)) + 1 := by
  omega

/-- Claim C1: for every sequence of envelopes returned by the submit/check
operation whose final envelope (the one at call index `k`) has status
completed and a present result — the earlier iterations being non-terminal
and inside the abort, attempt and time budgets — pollUntilComplete returns
exactly that result, and the total number of calls issued is `k + 1`, so
no further call follows the completed envelope. -/
theorem pollUntilComplete_completed_returns_result {T : Type} (w : PollWorld T)
    (t d : ℚ) (max : Int) (k : Nat) (v : T)
    (hk : (k : Int) < max)
    (hcont : ∀ i, i < k → continuesAt w t d i)
    (hab : w.abortedBefore k = false)
    (ht : w.elapsedAt k < t)
    (hst : (w.apiCall k).status = "completed")
    (hres : (w.apiCall k).result = some v) :
    pollUntilComplete w ⟨some t, some d, some max⟩ = (PollResult.success v, k + 1) := by
  rw [pollUntilComplete_reach w t d max k hk hcont, fuel_succ_of_lt max k hk]
  exact pollLoop_completed_some w t d (max.toNat - (k + 1)) k k (jobIdBefore w k) v
    hab ht hst hres

/-- World for the C1 witness: one processing envelope, then a completed
envelope carrying the result 42. -/
def exampleWorldC1 : PollWorld Nat where
  apiCall := fun i =>
    if i = 0 then ⟨"processing", "job-1", some 1, none, none⟩
    else ⟨"completed", "job-1", none, none, some 42⟩
  elapsedAt := fun _ => 0
  abortedBefore := fun _ => false
  sleepAborted := fun _ => false
  sleepAbortAfter := fun _ => none

/-- Witness for claim C1 at a concrete world: result 42 is returned after
exactly two calls. -/
theorem pollUntilComplete_completed_returns_result_witness :
    pollUntilComplete exampleWorldC1 ⟨some 60000, some 10000, some 5⟩ =
      (PollResult.success 42, 2) :=
  pollUntilComplete_completed_returns_result exampleWorldC1 60000 10000 5 1 42
    (by decide) (fun i hi => by interval_cases i; decide)
    (by decide) (by decide) (by decide) (by decide)

/-- World for the C2 counterexample: the first envelope is failed with a
present but empty error message. -/
def exampleWorldC2 : PollWorld Nat where
  apiCall := fun _ => ⟨"failed", "job-2", none, some "", none⟩
  elapsedAt := fun _ => 0
  abortedBefore := fun _ => false
  sleepAborted := fun _ => false
  sleepAbortAfter := fun _ => none

/-- Claim C2 counterexample: the final envelope carries the present error
message "" (the server did not omit it), yet the raised JobFailedError
carries the generic placeholder, because the JavaScript default
`response.error || "Unknown error"` also treats the empty string as
falsy. -/
theorem pollUntilComplete_failed_message_counterexample :
    (exampleWorldC2.apiCall 0).status = "failed" ∧
    (exampleWorldC2.apiCall 0).error = some "" ∧
    pollUntilComplete exampleWorldC2 ⟨some 900000, some 10000, some 90⟩ =
      (PollResult.jobFailed "job-2" "Unknown error", 1) ∧
    ("Unknown error" : String) ≠ "" := by
  refine ⟨rfl, rfl, ?_, by decide⟩
  decide

/-- Claim C2 as amended: for every sequence of envelopes whose final
envelope has status failed, pollUntilComplete raises a JobFailedError
carrying the same job id as that final envelope and the same error
message when that message is present and non-empty; when the server
omitted the message or sent an empty one, the generic placeholder
"Unknown error" is carried instead. -/
theorem pollUntilComplete_failed_job_failure {T : Type} (w : PollWorld T)
    (t d : ℚ) (max : Int) (k : Nat)
    (hk : (k : Int) < max)
    (hcont : ∀ i, i < k → continuesAt w t d i)
    (hab : w.abortedBefore k = false)
    (ht : w.elapsedAt k < t)
    (hst : (w.apiCall k).status = "failed") :
    pollUntilComplete w ⟨some t, some d, some max⟩ =
      (PollResult.jobFailed (w.apiCall k).jobId
        (jsOptStrOr (w.apiCall k).error "Unknown error"), k + 1) ∧
    (∀ m : String, (w.apiCall k).error = some m → m ≠ "" →
      jsOptStrOr (w.apiCall k).error "Unknown error" = m) ∧
    ((w.apiCall k).error = none ∨ (w.apiCall k).error = some "" →
      jsOptStrOr (w.apiCall k).error "Unknown error" = "Unknown error") := by
  refine ⟨?_, ?_, ?_⟩
  · rw [pollUntilComplete_reach w t d max k hk hcont, fuel_succ_of_lt max k hk]
    exact pollLoop_failed w t d (max.toNat - (k + 1)) k k (jobIdBefore w k) hab ht hst
  · intro m hm hne
    simp [jsOptStrOr, jsStrOr, hm, hne]
  · intro hcase
    rcases hcase with hnone | hempty
    · simp [jsOptStrOr, hnone]
    · simp [jsOptStrOr, jsStrOr, hempty]

/-- Witness for the amended claim C2: a failed envelope with the message
"bad archive" yields a JobFailedError with exactly that message. -/
def exampleWorldC2b : PollWorld Nat where
  apiCall := fun _ => ⟨"failed", "job-2", none, some "bad archive", none⟩
  elapsedAt := fun _ => 0
  abortedBefore := fun _ => false
  sleepAborted := fun _ => false
  sleepAbortAfter := fun _ => none

/-- Witness for the amended claim C2 at a concrete world. -/
theorem pollUntilComplete_failed_job_failure_witness :
    pollUntilComplete exampleWorldC2b ⟨some 900000, some 10000, some 90⟩ =
      (PollResult.jobFailed "job-2" "bad archive", 1) := by
  have h := pollUntilComplete_failed_job_failure exampleWorldC2b 900000 10000 90 0
    (by decide) (fun i hi => absurd hi (Nat.not_lt_zero i)) rfl (by decide) rfl
  exact h.1

/-- Claim C3: when every one of the `n = maxPollingAttempts` iterations
observes a non-terminal envelope within the budgets, the loop guard
finally fails and a PollingTimeoutError is raised whose attempts field
equals `maxPollingAttempts` (its jobId is the last observed one, defaulted
to "unknown"). -/
theorem pollUntilComplete_attempts_exhausted_timeout {T : Type} (w : PollWorld T)
    (t d : ℚ) (n : Nat)
    (hcont : ∀ i, i < n → continuesAt w t d i) :
    pollUntilComplete w ⟨some t, some d, some (n : Int)⟩ =
      (PollResult.pollingTimeout (jsStrOr (jobIdBefore w n) "unknown") t n, n) := by
  show pollLoop w t d ((n : Int)).toNat 0 0 "" = _
  have h0 : ((n : Int)).toNat = n + 0 := by omega
  rw [h0, pollLoop_advance w t d n 0 hcont]
  rfl

/-- World for the C3 witness: processing envelopes forever (end-to-end
scenario B of the specification). -/
def exampleWorldC3 : PollWorld Nat where
  apiCall := fun _ => ⟨"processing", "job-3", none, none, none⟩
  elapsedAt := fun _ => 0
  abortedBefore := fun _ => false
  sleepAborted := fun _ => false
  sleepAbortAfter := fun _ => none

/-- Witness for claim C3: three processing envelopes with
maxPollingAttempts 3 raise the timeout error with attempts 3. -/
theorem pollUntilComplete_attempts_exhausted_timeout_witness :
    pollUntilComplete exampleWorldC3 ⟨some 900000, some 10000, some (3 : Int)⟩ =
      (PollResult.pollingTimeout "job-3" 900000 3, 3) :=
  pollUntilComplete_attempts_exhausted_timeout exampleWorldC3 900000 10000 3
    (fun i hi => by interval_cases i <;> decide)

/-- Claim C4: the elapsed-time check runs before the call of the current
iteration: if the first `k` iterations were non-terminal, the abort check
passes, and the elapsed time at iteration `k` is at least `timeoutMs`,
then the PollingTimeoutError is raised (with the incremented attempt
counter) and the call count stays at `k`, even though `k < max` shows the
attempt budget is not exhausted. -/
theorem pollUntilComplete_elapsed_timeout_before_call {T : Type} (w : PollWorld T)
    (t d : ℚ) (max : Int) (k : Nat)
    (hk : (k : Int) < max)
    (hcont : ∀ i, i < k → continuesAt w t d i)
    (hab : w.abortedBefore k = false)
    (ht : t ≤ w.elapsedAt k) :
    pollUntilComplete w ⟨some t, some d, some max⟩ =
      (PollResult.pollingTimeout (jsStrOr (jobIdBefore w k) "unknown") t (k + 1), k) := by
  rw [pollUntilComplete_reach w t d max k hk hcont, fuel_succ_of_lt max k hk]
  exact pollLoop_timeout w t d (max.toNat - (k + 1)) k k (jobIdBefore w k) hab ht

/-- World for the C4 witness: the clock is already past the timeout at the
first iteration. -/
def exampleWorldC4 : PollWorld Nat where
  apiCall := fun _ => ⟨"processing", "job-4", none, none, none⟩
  elapsedAt := fun _ => 950000
  abortedBefore := fun _ => false
  sleepAborted := fun _ => false
  sleepAbortAfter := fun _ => none

/-- Witness for claim C4: the very first iteration times out before any
call, with zero calls issued and an attempt budget of 90 left. -/
theorem pollUntilComplete_elapsed_timeout_before_call_witness :
    pollUntilComplete exampleWorldC4 ⟨some 900000, some 10000, some 90⟩ =
      (PollResult.pollingTimeout "unknown" 900000 1, 0) :=
  pollUntilComplete_elapsed_timeout_before_call exampleWorldC4 900000 10000 90 0
    (by decide) (fun i hi => absurd hi (Nat.not_lt_zero i)) rfl (by decide)

/-- Claim C5: the cancellation error has the distinct identity
"AbortError" (different from the timeout error name); when the handle is
already triggered at the abort check of an iteration, no call is issued
and the AbortError is raised at once; when the handle fires during a wait,
`sleepWithAbort` rejects at the firing time, strictly before the full
interval elapses; and a rejecting sleep makes pollUntilComplete raise the
AbortError. -/
theorem pollUntilComplete_abort_semantics (T : Type) :
    (pollErrorName (PollResult.aborted : PollResult T) = some "AbortError" ∧
      ∀ (j : String) (tm : ℚ) (a : Nat),
        pollErrorName (PollResult.pollingTimeout j tm a : PollResult T) ≠
          some "AbortError") ∧
    (∀ (w : PollWorld T) (t d : ℚ) (max : Int) (k : Nat),
      (k : Int) < max → (∀ i, i < k → continuesAt w t d i) →
      w.abortedBefore k = true →
      pollUntilComplete w ⟨some t, some d, some max⟩ = (PollResult.aborted, k)) ∧
    (∀ ms u : ℚ, 0 ≤ u → u < ms →
      sleepWithAbort ms false (some u) = (SleepOutcome.abortErr, u)) ∧
    (∀ (w : PollWorld T) (t d : ℚ) (max : Int) (k : Nat),
      (k : Int) < max → (∀ i, i < k → continuesAt w t d i) →
      w.abortedBefore k = false → w.elapsedAt k < t →
      (w.apiCall k).status ≠ "completed" → (w.apiCall k).status ≠ "failed" →
      (sleepWithAbort (retryWaitMs (w.apiCall k) d)
          (w.sleepAborted k) (w.sleepAbortAfter k)).1 = SleepOutcome.abortErr →
      pollUntilComplete w ⟨some t, some d, some max⟩ = (PollResult.aborted, k + 1)) := by
  refine ⟨⟨rfl, ?_⟩, ?_, ?_, ?_⟩
  · intro j tm a h
    simp [pollErrorName] at h
  · intro w t d max k hk hcont hab
    rw [pollUntilComplete_reach w t d max k hk hcont, fuel_succ_of_lt max k hk]
    exact pollLoop_abort w t d (max.toNat - (k + 1)) k k (jobIdBefore w k) hab
  · intro ms u _ hu
    simp [sleepWithAbort, hu]
  · intro w t d max k hk hcont hab ht hc hf hs
    rw [pollUntilComplete_reach w t d max k hk hcont, fuel_succ_of_lt max k hk]
    exact pollLoop_sleep_abort w t d (max.toNat - (k + 1)) k k (jobIdBefore w k)
      hab ht hc hf hs

/-- World for the C5 witness: the signal is already aborted at the first
check. -/
def exampleWorldC5 : PollWorld Nat where
  apiCall := fun _ => ⟨"processing", "job-5", none, none, none⟩
  elapsedAt := fun _ => 0
  abortedBefore := fun _ => true
  sleepAborted := fun _ => false
  sleepAbortAfter := fun _ => none

/-- World for the C5 witness: the signal fires at the entry of the first
sleep. -/
def exampleWorldC5b : PollWorld Nat where
  apiCall := fun _ => ⟨"processing", "job-5", none, none, none⟩
  elapsedAt := fun _ => 0
  abortedBefore := fun _ => false
  sleepAborted := fun _ => true
  sleepAbortAfter := fun _ => none

/-- Witness for claim C5 at concrete inputs: the AbortError identity, an
already-aborted session raising with zero calls, a sleep of 1000ms cut to
1ms by the signal, and a session whose first sleep rejects. -/
theorem pollUntilComplete_abort_semantics_witness :
    (pollErrorName (PollResult.aborted : PollResult Nat) = some "AbortError" ∧
      pollErrorName (PollResult.pollingTimeout "job-5" 900000 3 : PollResult Nat) ≠
        some "AbortError") ∧
    pollUntilComplete exampleWorldC5 ⟨some 900000, some 10000, some 90⟩ =
      (PollResult.aborted, 0) ∧
    sleepWithAbort 1000 false (some 1) = (SleepOutcome.abortErr, 1) ∧
    pollUntilComplete exampleWorldC5b ⟨some 900000, some 10000, some 90⟩ =
      (PollResult.aborted, 1) :=
  ⟨⟨(pollUntilComplete_abort_semantics Nat).1.1,
    (pollUntilComplete_abort_semantics Nat).1.2 "job-5" 900000 3⟩,
   (pollUntilComplete_abort_semantics Nat).2.1 exampleWorldC5 900000 10000 90 0
     (by decide) (fun i hi => absurd hi (Nat.not_lt_zero i)) rfl,
   (pollUntilComplete_abort_semantics Nat).2.2.1 1000 1 (by norm_num) (by norm_num),
   (pollUntilComplete_abort_semantics Nat).2.2.2 exampleWorldC5b 900000 10000 90 0
     (by decide) (fun i hi => absurd hi (Nat.not_lt_zero i)) rfl (by decide)
     (by decide) (by decide) rfl⟩

/-- Claim C6: the wait duration computed for a non-terminal envelope is
the servers retryAfter (seconds) times 1000 when present and positive,
and the configured defaultRetryIntervalMs when retryAfter is absent or
zero; in particular retryAfter 5 with default 10000 yields 5000, and an
absent retryAfter yields exactly the default. -/
theorem retryWaitMs_selection :
    (∀ (T : Type) (env : AsyncEnvelope T) (d r : ℚ),
      env.retryAfter = some r → 0 < r → retryWaitMs env d = r * 1000) ∧
    (∀ (T : Type) (env : AsyncEnvelope T) (d : ℚ),
      env.retryAfter = none → retryWaitMs env d = d) ∧
    (∀ (T : Type) (env : AsyncEnvelope T) (d : ℚ),
      env.retryAfter = some 0 → retryWaitMs env d = d) ∧
    (∀ (T : Type) (env : AsyncEnvelope T),
      env.retryAfter = some 5 → retryWaitMs env 10000 = 5000) := by
  refine ⟨?_, ?_, ?_, ?_⟩
  · intro Tv env d r h hr
    simp [retryWaitMs, jsNumOr, h, hr.ne']
  · intro Tv env d h
    rw [retryWaitMs, h]
    show d / 1000 * 1000 = d
    field_simp
  · intro Tv env d h
    rw [retryWaitMs, h]
    show (if (0 : ℚ) = 0 then d / 1000 else 0) * 1000 = d
    rw [if_pos rfl]
    field_simp
  · intro Tv env h
    simp [retryWaitMs, jsNumOr, h]
    norm_num

/-- Envelope for the C6 witness with retryAfter 5. -/
def exampleEnvC6 : AsyncEnvelope Nat :=
  ⟨"processing", "job-6", some 5, none, none⟩

/-- Envelope for the C6 witness with retryAfter absent. -/
def exampleEnvC6b : AsyncEnvelope Nat :=
  ⟨"processing", "job-6", none, none, none⟩

/-- Witness for claim C6: retryAfter 5 with default 10000 waits 5000ms,
and an absent retryAfter waits the default 10000ms. -/
theorem retryWaitMs_selection_witness :
    retryWaitMs exampleEnvC6 10000 = 5000 ∧ retryWaitMs exampleEnvC6b 10000 = 10000 :=
  ⟨retryWaitMs_selection.2.2.2 Nat exampleEnvC6 rfl,
   retryWaitMs_selection.2.1 Nat exampleEnvC6b 10000 rfl⟩

/-- Claim C7: a completed envelope whose result is undefined makes
pollUntilComplete raise the protocol-violation error after that call
(call count `k + 1`, so it is not retried), and that error is distinct
from every success. -/
theorem pollUntilComplete_completed_without_result {T : Type} (w : PollWorld T)
    (t d : ℚ) (max : Int) (k : Nat)
    (hk : (k : Int) < max)
    (hcont : ∀ i, i < k → continuesAt w t d i)
    (hab : w.abortedBefore k = false)
    (ht : w.elapsedAt k < t)
    (hst : (w.apiCall k).status = "completed")
    (hres : (w.apiCall k).result = none) :
    pollUntilComplete w ⟨some t, some d, some max⟩ =
      (PollResult.protocolViolation (w.apiCall k).jobId, k + 1) ∧
    (∀ v : T, (PollResult.protocolViolation (w.apiCall k).jobId : PollResult T) ≠
      PollResult.success v) := by
  refine ⟨?_, fun v h => PollResult.noConfusion h⟩
  rw [pollUntilComplete_reach w t d max k hk hcont, fuel_succ_of_lt max k hk]
  exact pollLoop_completed_none w t d (max.toNat - (k + 1)) k k (jobIdBefore w k)
    hab ht hst hres

/-- World for the C7 witness: a single completed envelope with an
undefined result (end-to-end scenario D of the specification). -/
def exampleWorldC7 : PollWorld Nat where
  apiCall := fun _ => ⟨"completed", "job-7", none, none, none⟩
  elapsedAt := fun _ => 0
  abortedBefore := fun _ => false
  sleepAborted := fun _ => false
  sleepAbortAfter := fun _ => none

/-- Witness for claim C7 at a concrete world. -/
theorem pollUntilComplete_completed_without_result_witness :
    pollUntilComplete exampleWorldC7 ⟨some 900000, some 10000, some 90⟩ =
      (PollResult.protocolViolation "job-7", 1) := by
  have h := pollUntilComplete_completed_without_result exampleWorldC7 900000 10000 90 0
    (by decide) (fun i hi => absurd hi (Nat.not_lt_zero i)) rfl (by decide) rfl rfl
  exact h.1

/-- Claim C8: an envelope whose status string is neither completed nor
failed — including unrecognized strings — falls through to the retry
branch: after its sleep resolves, the session continues as the loop at the
next call index, with one more attempt consumed and the remaining budget
decreased by one. -/
theorem pollUntilComplete_unknown_status_retries {T : Type} (w : PollWorld T)
    (t d : ℚ) (max : Int) (k : Nat)
    (hk : (k : Int) < max)
    (hcont : ∀ i, i < k → continuesAt w t d i)
    (hab : w.abortedBefore k = false)
    (ht : w.elapsedAt k < t)
    (hc : (w.apiCall k).status ≠ "completed")
    (hf : (w.apiCall k).status ≠ "failed")
    (hs : (sleepWithAbort (retryWaitMs (w.apiCall k) d)
        (w.sleepAborted k) (w.sleepAbortAfter k)).1 = SleepOutcome.resolved) :
    pollUntilComplete w ⟨some t, some d, some max⟩ =
      pollLoop w t d (max.toNat - (k + 1)) (k + 1) (k + 1) ((w.apiCall k).jobId) := by
  rw [pollUntilComplete_reach w t d max k hk hcont, fuel_succ_of_lt max k hk]
  exact pollLoop_step w t d (max.toNat - (k + 1)) k k (jobIdBefore w k)
    ⟨hab, ht, hc, hf, hs⟩

/-- World for the C8 witness: the server answers an unrecognized status
string on the first call. -/
def exampleWorldC8 : PollWorld Nat where
  apiCall := fun _ => ⟨"wibbly-wobbly", "job-8", none, none, none⟩
  elapsedAt := fun _ => 0
  abortedBefore := fun _ => false
  sleepAborted := fun _ => false
  sleepAbortAfter := fun _ => none

/-- Witness for claim C8: after the unrecognized envelope the session is
exactly the loop continued at call index 1 with 2 attempts left. -/
theorem pollUntilComplete_unknown_status_retries_witness :
    pollUntilComplete exampleWorldC8 ⟨some 900000, some 10000, some 3⟩ =
      pollLoop exampleWorldC8 900000 10000 2 1 1 "job-8" :=
  pollUntilComplete_unknown_status_retries exampleWorldC8 900000 10000 3 0
    (by decide) (fun i hi => absurd hi (Nat.not_lt_zero i)) rfl (by decide)
    (by decide) (by decide) rfl

/-- Claim C10: with a zero or negative maxPollingAttempts the loop body
never runs: the PollingTimeoutError is raised immediately with attempts 0
and jobId "unknown", with no call, no wait, and no abort check — the
equation holds for every world, in particular for one whose cancellation
handle is already triggered. -/
theorem pollUntilComplete_nonpositive_attempts {T : Type} (w : PollWorld T)
    (t d : ℚ) (max : Int) (hmax : max ≤ 0) :
    pollUntilComplete w ⟨some t, some d, some max⟩ =
      (PollResult.pollingTimeout "unknown" t 0, 0) := by
  have h0 : max.toNat = 0 := by omega
  show pollLoop w t d max.toNat 0 0 "" = _
  rw [h0]
  rfl

/-- World for the C10 witness: the cancellation handle is already
triggered everywhere, yet the timeout error wins. -/
def exampleWorldC10 : PollWorld Nat where
  apiCall := fun _ => ⟨"processing", "job-10", none, none, none⟩
  elapsedAt := fun _ => 0
  abortedBefore := fun _ => true
  sleepAborted := fun _ => true
  sleepAbortAfter := fun _ => none

/-- Witness for claim C10: maxPollingAttempts -3 raises the timeout error
with attempts 0 and no calls although the handle is triggered. -/
theorem pollUntilComplete_nonpositive_attempts_witness :
    pollUntilComplete exampleWorldC10 ⟨some 900000, some 10000, some (-3)⟩ =
      (PollResult.pollingTimeout "unknown" 900000 0, 0) ∧
    exampleWorldC10.abortedBefore 0 = true :=
  ⟨pollUntilComplete_nonpositive_attempts exampleWorldC10 900000 10000 (-3) (by decide),
   rfl⟩

/-- Template string of the fallback idempotency key generator (async.ts
line 143). -/
def uuidTemplate : String := "xxxxxxxx-xxxx-4xxx-yxxx-xxxxxxxxxxxx"

/-- The replacement callback of the fallback generator at one matched
character: `r` is the value of `Math.random() * 16 | 0`, an integer in
[0, 16); an x becomes `r.toString(16)` and a y becomes
`((r & 0x3) | 0x8).toString(16)`. -/
def uuidReplaceChar (c : Char) (r : Fin 16) : Char :=
  if c = 'x' then Nat.digitChar r.val
  else Nat.digitChar ((r.val &&& 3) ||| 8)

/-- `template.replace(/[xy]/g, cb)`: every x or y character is replaced
using the next random draw, all other characters pass through unchanged. -/
def uuidReplace (rand : Nat → Fin 16) : List Char → Nat → List Char
  | [], _ => []
  | c :: cs, idx =>
    if c = 'x' ∨ c = 'y' then
      uuidReplaceChar c (rand idx) :: uuidReplace rand cs (idx + 1)
    else
      c :: uuidReplace rand cs idx

/-- The fallback branch of `defaultGenerateIdempotencyKey` (async.ts lines
143-147), used when `crypto.randomUUID` is unavailable; `rand i` is the
random draw consumed by the i-th replaced character. -/
def fallbackIdempotencyKey (rand : Nat → Fin 16) : String :=
  String.mk (uuidReplace rand uuidTemplate.toList 0)

/-- The variant character produced for the single y of the template lies
in 8, 9, a, b, whatever the draw. -/
lemma uuidVariantChar (v : Fin 16) :
    Nat.digitChar ((v.val &&& 3) ||| 8) = '8' ∨
    Nat.digitChar ((v.val &&& 3) ||| 8) = '9' ∨
    Nat.digitChar ((v.val &&& 3) ||| 8) = 'a' ∨
    Nat.digitChar ((v.val &&& 3) ||| 8) = 'b' := by
  revert v
  decide

/-- Claim C9: every output of the fallback idempotency key generator has
the UUID version-4 textual layout, regardless of the random draws: 36
characters, hyphens at positions 8, 13, 18 and 23, the character 4 at
position 14, and a character among 8, 9, a, b at position 19. -/
theorem fallbackIdempotencyKey_uuid_layout (rand : Nat → Fin 16) :
    (fallbackIdempotencyKey rand).toList.length = 36 ∧
    (fallbackIdempotencyKey rand).toList.get? 8 = some '-' ∧
    (fallbackIdempotencyKey rand).toList.get? 13 = some '-' ∧
    (fallbackIdempotencyKey rand).toList.get? 18 = some '-' ∧
    (fallbackIdempotencyKey rand).toList.get? 23 = some '-' ∧
    (fallbackIdempotencyKey rand).toList.get? 14 = some '4' ∧
    ∃ c, (fallbackIdempotencyKey rand).toList.get? 19 = some c ∧
      (c = '8' ∨ c = '9' ∨ c = 'a' ∨ c = 'b') := by
  refine ⟨rfl, rfl, rfl, rfl, rfl, rfl, ?_⟩
  exact ⟨Nat.digitChar (((rand 15).val &&& 3) ||| 8), rfl, uuidVariantChar (rand 15)⟩

end SupermodelSDK
